import Mathlib

/-!
Verification of the clap-verbosity-flag core (src/lib.rs): a shallow
embedding of the verbosity accumulator and its level mappings, with
theorems checking the specification's claims.

Machine-integer conventions: the two stored counts are u8 values,
modelled as natural numbers bounded by 256.  The signed verbosity is an
i8; Rust's u8-to-i8 cast is the two's-complement reinterpretation and
i8 arithmetic wraps modulo 256 (release semantics), both made explicit
below.
-/

/-- Log severity levels, mirroring the log crate's Level enumeration. -/
inductive Level
| error
| warn
| info
| debug
| trace
deriving DecidableEq

/-- Log level filters, mirroring the log crate's LevelFilter enumeration. -/
inductive LevelFilter
| off
| error
| warn
| info
| debug
| trace
deriving DecidableEq

/-- Tracing level filters, mirroring tracing_subscriber's LevelFilter. -/
inductive TracingLevelFilter
| off
| error
| warn
| info
| debug
| trace
deriving DecidableEq

/-- Rust's u8-to-i8 cast: two's-complement reinterpretation of the byte. -/
def asI8 (c : Nat) : Int :=
  if c < 128 then (c : Int) else (c : Int) - 256

/-- Wrapping of an integer into the i8 range, the semantics of i8
arithmetic (release build): the result is congruent mod 256 and lies in
the interval from -128 to 127. -/
def wrap8 (x : Int) : Int :=
  (x + 128) % 256 - 128

/-- Embeds level_value_log (src/lib.rs lines 170-179): the integer rank
of an optional log level, -1 for None and 0..4 for Error..Trace. -/
def level_value_log (level : Option Level) : Int :=
  match level with
  | none => -1
  | some Level.error => 0
  | some Level.warn => 1
  | some Level.info => 2
  | some Level.debug => 3
  | some Level.trace => 4

/-- Embeds level_value_tracing (src/lib.rs lines 182-191). -/
def level_value_tracing (level : TracingLevelFilter) : Int :=
  match level with
  | TracingLevelFilter.error => 0
  | TracingLevelFilter.warn => 1
  | TracingLevelFilter.info => 2
  | TracingLevelFilter.debug => 3
  | TracingLevelFilter.trace => 4
  | TracingLevelFilter.off => -1

/-- Embeds level_enum_log (src/lib.rs lines 194-203): maps the signed
verbosity to an optional log level; negatives to None, 4 and above to
Trace. -/
def level_enum_log (v : Int) : Option Level :=
  if v < 0 then none
  else if v = 0 then some Level.error
  else if v = 1 then some Level.warn
  else if v = 2 then some Level.info
  else if v = 3 then some Level.debug
  else some Level.trace

/-- Embeds level_enum_tracing (src/lib.rs lines 206-215). -/
def level_enum_tracing (v : Int) : TracingLevelFilter :=
  if v < 0 then TracingLevelFilter.off
  else if v = 0 then TracingLevelFilter.error
  else if v = 1 then TracingLevelFilter.warn
  else if v = 2 then TracingLevelFilter.info
  else if v = 3 then TracingLevelFilter.debug
  else TracingLevelFilter.trace

/-- The default_log of the built-in ErrorLevel policy (src/lib.rs 253). -/
def ErrorLevel.default_log : Option Level := some Level.error

/-- The default_log of the built-in WarnLevel policy (src/lib.rs 268). -/
def WarnLevel.default_log : Option Level := some Level.warn

/-- The default_log of the built-in InfoLevel policy (src/lib.rs 283). -/
def InfoLevel.default_log : Option Level := some Level.info

/-- Embeds Verbosity::verbosity (src/lib.rs lines 160-166, log-feature
path): level_value_log of the policy default, minus the quiet count
cast to i8, plus the verbose count cast to i8, with each i8 operation
wrapping.  The policy enters only through its default_log value dl. -/
def verbosity (dl : Option Level) (verbose quiet : Nat) : Int :=
  wrap8 (wrap8 (level_value_log dl - asI8 quiet) + asI8 verbose)

/-- Embeds Verbosity::log_level (src/lib.rs lines 130-132). -/
def log_level (dl : Option Level) (verbose quiet : Nat) : Option Level :=
  level_enum_log (verbosity dl verbose quiet)

/-- The log crate's Level::to_level_filter (external dependency): each
level maps to the filter of the same name. -/
def to_level_filter (l : Level) : LevelFilter :=
  match l with
  | Level.error => LevelFilter.error
  | Level.warn => LevelFilter.warn
  | Level.info => LevelFilter.info
  | Level.debug => LevelFilter.debug
  | Level.trace => LevelFilter.trace

/-- Embeds Verbosity::log_level_filter (src/lib.rs lines 141-145). -/
def log_level_filter (dl : Option Level) (verbose quiet : Nat) : LevelFilter :=
  ((log_level dl verbose quiet).map to_level_filter).getD LevelFilter.off

/-- Embeds Verbosity::is_silent (src/lib.rs lines 153-158, log-feature
path): true when log_level is None. -/
def is_silent (dl : Option Level) (verbose quiet : Nat) : Bool :=
  (log_level dl verbose quiet).isNone

/-- Decimal digit characters of a natural number, most significant
first, via fuel-bounded division by ten; acc accumulates the suffix. -/
def natDecGo : Nat → Nat → List Char → List Char
  | 0, _, acc => acc
  | fuel + 1, n, acc =>
    let d := Char.ofNat (48 + n % 10)
    if n < 10 then d :: acc else natDecGo fuel (n / 10) (d :: acc)

/-- Decimal string of a natural number. -/
def natDecimal (n : Nat) : String :=
  String.mk (natDecGo (n + 1) n [])

/-- Decimal rendering of an integer, as Rust's Display for i8 writes
it: an optional minus sign followed by the digits of the magnitude. -/
def intRepr (x : Int) : String :=
  if x < 0 then String.mk ('-' :: natDecGo (x.natAbs + 1) x.natAbs []) else natDecimal x.natAbs

/-- Embeds the Display impl for Verbosity (src/lib.rs lines 219-223):
formats the raw signed verbosity in decimal. -/
def displayVerbosity (dl : Option Level) (verbose quiet : Nat) : String :=
  intRepr (verbosity dl verbose quiet)

/-- The tracing filter naming the same severity as a log level. -/
def tracingFilterOfLevel (l : Level) : TracingLevelFilter :=
  match l with
  | Level.error => TracingLevelFilter.error
  | Level.warn => TracingLevelFilter.warn
  | Level.info => TracingLevelFilter.info
  | Level.debug => TracingLevelFilter.debug
  | Level.trace => TracingLevelFilter.trace

lemma level_value_log_range (dl : Option Level) :
    -1 ≤ level_value_log dl ∧ level_value_log dl ≤ 4 := by
  cases dl with
  | none => exact ⟨by decide, by decide⟩
  | some l => cases l <;> exact ⟨by decide, by decide⟩

lemma wrap8_eq_of_range (x : Int) (h1 : -128 ≤ x) (h2 : x ≤ 127) : wrap8 x = x := by
  unfold wrap8
  rw [Int.emod_eq_of_lt (by omega) (by omega)]
  omega

lemma wrap8_range (x : Int) : -128 ≤ wrap8 x ∧ wrap8 x ≤ 127 := by
  unfold wrap8
  have h1 : 0 ≤ (x + 128) % 256 := Int.emod_nonneg _ (by decide)
  have h2 : (x + 128) % 256 < 256 := Int.emod_lt_of_pos _ (by decide)
  omega

lemma asI8_small (c : Nat) (h : c < 128) : asI8 c = (c : Int) := by
  unfold asI8
  rw [if_pos h]

lemma verbosity_unwrapped (dl : Option Level) (v q : Nat) (hv : v < 128) (hq : q < 128)
    (hub : level_value_log dl - (q : Int) + (v : Int) ≤ 127) :
    verbosity dl v q = level_value_log dl - (q : Int) + (v : Int) := by
  obtain ⟨hd1, hd2⟩ := level_value_log_range dl
  unfold verbosity
  rw [asI8_small q hq, asI8_small v hv]
  rw [wrap8_eq_of_range (level_value_log dl - (q : Int)) (by omega) (by omega)]
  exact wrap8_eq_of_range _ (by omega) hub

lemma level_enum_log_none_iff (x : Int) : level_enum_log x = none ↔ x < 0 := by
  unfold level_enum_log
  split_ifs <;> simp_all

lemma level_enum_log_trace_iff (x : Int) :
    level_enum_log x = some Level.trace ↔ 4 ≤ x := by
  unfold level_enum_log
  split_ifs <;> simp_all <;> omega

lemma natDecGo_ne_nil (fuel : Nat) : ∀ (n : Nat) (acc : List Char),
    acc ≠ [] → natDecGo fuel n acc ≠ [] := by
  induction fuel with
  | zero => intro n acc h; exact h
  | succ fuel ih =>
    intro n acc _
    unfold natDecGo
    dsimp only
    split
    · exact List.cons_ne_nil _ _
    · exact ih _ _ (List.cons_ne_nil _ _)

lemma natDecimal_ne_empty (n : Nat) : natDecimal n ≠ "" := by
  unfold natDecimal
  intro h
  have h2 : natDecGo (n + 1) n [] = [] := congrArg String.data h
  revert h2
  unfold natDecGo
  dsimp only
  split
  · exact List.cons_ne_nil _ _
  · exact natDecGo_ne_nil _ _ _ (List.cons_ne_nil _ _)

lemma intRepr_ne_empty (x : Int) : intRepr x ≠ "" := by
  unfold intRepr
  split_ifs
  · intro h
    exact List.cons_ne_nil _ _ (congrArg String.data h)
  · exact natDecimal_ne_empty _


/-- C1 (counterexample): at the default-Error policy with verbose_count
255 and quiet_count 0, the computed signed verbosity is -1, not the
mathematical d - quiet + verbose = 255; the u8-to-i8 cast wraps. -/
theorem c1_counterexample :
    ¬ (verbosity (some Level.error) 255 0
        = level_value_log (some Level.error) - ((0 : Nat) : Int) + ((255 : Nat) : Int)) := by
  decide

/-- C1 (amended): for every policy default and counts below 128 such
that the mathematical result d - quiet + verbose is at most 127, the
computed signed verbosity equals exactly d - quiet + verbose as an
unclamped integer. -/
theorem c1_verbosity_exact (dl : Option Level) (v q : Nat)
    (hv : v < 128) (hq : q < 128)
    (hub : level_value_log dl - (q : Int) + (v : Int) ≤ 127) :
    verbosity dl v q = level_value_log dl - (q : Int) + (v : Int) :=
  verbosity_unwrapped dl v q hv hq hub

/-- C1 witness: default-Error policy with verbose 2, quiet 0 computes
signed verbosity 0 - 0 + 2. -/
theorem c1_verbosity_exact_witness :
    verbosity (some Level.error) 2 0
      = level_value_log (some Level.error) - ((0 : Nat) : Int) + ((2 : Nat) : Int) :=
  c1_verbosity_exact (some Level.error) 2 0 (by decide) (by decide) (by decide)

/-- C2: over the whole i8 range the level mapping sends negatives to
None and 0, 1, 2, 3 to Error, Warn, Info, Debug, with everything at or
above 4 collapsing to Trace; and the default-Error scenarios (0,0),
(1,0), (0,1), (4,0), (10,0) give Error, Warn, no output, Trace, Trace. -/
theorem c2_level_mapping (v : Int) (h1 : -128 ≤ v) (h2 : v ≤ 127) :
    ((v < 0 → level_enum_log v = none)
      ∧ (v = 0 → level_enum_log v = some Level.error)
      ∧ (v = 1 → level_enum_log v = some Level.warn)
      ∧ (v = 2 → level_enum_log v = some Level.info)
      ∧ (v = 3 → level_enum_log v = some Level.debug)
      ∧ (4 ≤ v → level_enum_log v = some Level.trace))
    ∧ (log_level ErrorLevel.default_log 0 0 = some Level.error
      ∧ log_level ErrorLevel.default_log 1 0 = some Level.warn
      ∧ log_level ErrorLevel.default_log 0 1 = none
      ∧ log_level ErrorLevel.default_log 4 0 = some Level.trace
      ∧ log_level ErrorLevel.default_log 10 0 = some Level.trace) := by
  refine ⟨⟨?_, ?_, ?_, ?_, ?_, ?_⟩, by decide⟩
  · intro h
    unfold level_enum_log
    rw [if_pos h]
  · intro h; subst h; decide
  · intro h; subst h; decide
  · intro h; subst h; decide
  · intro h; subst h; decide
  · intro h
    unfold level_enum_log
    rw [if_neg (by omega), if_neg (by omega), if_neg (by omega), if_neg (by omega),
      if_neg (by omega)]

/-- C2 witness: the default-Error scenario facts, instantiated. -/
theorem c2_level_mapping_witness :
    log_level ErrorLevel.default_log 0 0 = some Level.error
      ∧ log_level ErrorLevel.default_log 1 0 = some Level.warn
      ∧ log_level ErrorLevel.default_log 0 1 = none
      ∧ log_level ErrorLevel.default_log 4 0 = some Level.trace
      ∧ log_level ErrorLevel.default_log 10 0 = some Level.trace :=
  (c2_level_mapping 0 (by decide) (by decide)).2

/-- C3: is_silent is true exactly when log_level is None, which holds
exactly when the signed verbosity is negative. -/
theorem c3_is_silent_iff (dl : Option Level) (v q : Nat) (_hv : v < 256) (_hq : q < 256) :
    (is_silent dl v q = true ↔ log_level dl v q = none)
      ∧ (log_level dl v q = none ↔ verbosity dl v q < 0) := by
  constructor
  · unfold is_silent
    exact Option.isNone_iff_eq_none
  · exact level_enum_log_none_iff _

/-- C3 witness: instantiated at the default-Error policy with one quiet
occurrence. -/
theorem c3_is_silent_iff_witness :
    (is_silent (some Level.error) 0 1 = true ↔ log_level (some Level.error) 0 1 = none)
      ∧ (log_level (some Level.error) 0 1 = none ↔ verbosity (some Level.error) 0 1 < 0) :=
  c3_is_silent_iff (some Level.error) 0 1 (by decide) (by decide)

/-- C4 (counterexample): for the default-Error policy with quiet 0, the
mapped severity is Trace at verbose 4, yet at the larger u8 count 130
it is no longer Trace (the cast wraps 130 to -126), so increasing the
verbose count over the full unsigned 8-bit range can change a saturated
result. -/
theorem c4_counterexample :
    log_level ErrorLevel.default_log 4 0 = some Level.trace
      ∧ (4 : Nat) ≤ 130 ∧ (130 : Nat) < 256
      ∧ log_level ErrorLevel.default_log 130 0 ≠ some Level.trace := by
  decide

/-- C4 (amended): saturation is idempotent for counts below 128 whose
arithmetic does not overflow: once the mapped severity is Trace,
raising the verbose count within that range keeps it Trace. -/
theorem c4_saturation_idempotent (dl : Option Level) (q v w : Nat)
    (hq : q < 128) (hvw : v ≤ w) (hw : w < 128)
    (hub : level_value_log dl - (q : Int) + (w : Int) ≤ 127)
    (htr : log_level dl v q = some Level.trace) :
    log_level dl w q = some Level.trace := by
  obtain ⟨hd1, hd2⟩ := level_value_log_range dl
  unfold log_level at htr ⊢
  rw [verbosity_unwrapped dl v q (by omega) hq (by omega)] at htr
  rw [verbosity_unwrapped dl w q (by omega) hq hub]
  rw [level_enum_log_trace_iff] at htr
  rw [level_enum_log_trace_iff]
  omega

/-- C4 witness: for the default-Error policy, verbose 10 yields the
same Trace severity as verbose 4. -/
theorem c4_saturation_idempotent_witness :
    log_level ErrorLevel.default_log 10 0 = some Level.trace :=
  c4_saturation_idempotent ErrorLevel.default_log 0 4 10 (by decide) (by decide)
    (by decide) (by decide) (by decide)

/-- C5: every operation is total over the full u8 count range: the
signed verbosity always lands in the i8 interval, the level is None or
one of the five levels, the filter is Off or a level's filter, the
silence query is one of the two booleans, and the rendered string is
never empty. -/
theorem c5_operations_total (dl : Option Level) (v q : Nat) (_hv : v < 256) (_hq : q < 256) :
    (-128 ≤ verbosity dl v q ∧ verbosity dl v q ≤ 127)
      ∧ (log_level dl v q = none ∨ ∃ l, log_level dl v q = some l)
      ∧ (log_level_filter dl v q = LevelFilter.off
          ∨ ∃ l, log_level_filter dl v q = to_level_filter l)
      ∧ (is_silent dl v q = true ∨ is_silent dl v q = false)
      ∧ displayVerbosity dl v q ≠ "" := by
  refine ⟨wrap8_range _, ?_, ?_, ?_, intRepr_ne_empty _⟩
  · cases h : log_level dl v q with
    | none => exact Or.inl rfl
    | some l => exact Or.inr ⟨l, rfl⟩
  · unfold log_level_filter
    cases h : log_level dl v q with
    | none => exact Or.inl rfl
    | some l => exact Or.inr ⟨l, rfl⟩
  · cases h : is_silent dl v q with
    | true => exact Or.inl rfl
    | false => exact Or.inr rfl

/-- C5 witness: the verbosity bound and nonempty rendering at the
default-Error policy with verbose 3, quiet 0. -/
theorem c5_operations_total_witness :
    (-128 ≤ verbosity (some Level.error) 3 0 ∧ verbosity (some Level.error) 3 0 ≤ 127)
      ∧ displayVerbosity (some Level.error) 3 0 ≠ "" :=
  ⟨(c5_operations_total (some Level.error) 3 0 (by decide) (by decide)).1,
    (c5_operations_total (some Level.error) 3 0 (by decide) (by decide)).2.2.2.2⟩

/-- C6: the filter mapping and the level mapping agree on whether
output is enabled: the filter is Off exactly when the level is None,
and otherwise the filter corresponds to the returned level. -/
theorem c6_filter_level_agree (dl : Option Level) (v q : Nat)
    (_hv : v < 256) (_hq : q < 256) :
    (log_level_filter dl v q = LevelFilter.off ↔ log_level dl v q = none)
      ∧ ∀ l, log_level dl v q = some l → log_level_filter dl v q = to_level_filter l := by
  unfold log_level_filter
  cases h : log_level dl v q with
  | none =>
    refine ⟨by decide, ?_⟩
    intro l hl
    exact Option.noConfusion hl
  | some l =>
    refine ⟨⟨?_, ?_⟩, ?_⟩
    · intro hoff
      exfalso
      cases l <;> simp [to_level_filter] at hoff
    · intro hn
      exact Option.noConfusion hn
    · intro m hm
      injection hm with hlm
      subst hlm
      simp [to_level_filter]

/-- C6 witness: at the default-Error policy with zero counts the filter
is Off exactly when the level is None. -/
theorem c6_filter_level_agree_witness :
    log_level_filter ErrorLevel.default_log 0 0 = LevelFilter.off
      ↔ log_level ErrorLevel.default_log 0 0 = none :=
  (c6_filter_level_agree ErrorLevel.default_log 0 0 (by decide) (by decide)).1

/-- C7: the log-flavored and tracing-flavored mappings agree on every
signed verbosity in the i8 range: the log mapping is None exactly when
the tracing mapping is Off, and a present log level names the same
severity as the tracing filter. -/
theorem c7_log_tracing_agree (v : Int) (_h1 : -128 ≤ v) (_h2 : v ≤ 127) :
    (level_enum_log v = none ↔ level_enum_tracing v = TracingLevelFilter.off)
      ∧ ∀ l, level_enum_log v = some l
          → level_enum_tracing v = tracingFilterOfLevel l := by
  unfold level_enum_log level_enum_tracing
  split_ifs <;> simp [tracingFilterOfLevel]

/-- C7 witness: agreement instantiated at signed verbosity 2. -/
theorem c7_log_tracing_agree_witness :
    level_enum_log 2 = none ↔ level_enum_tracing 2 = TracingLevelFilter.off :=
  (c7_log_tracing_agree 2 (by decide) (by decide)).1

/-- C8: for the default-Info policy with verbose 0 and quiet 2, the
signed verbosity is exactly 2 - 2 + 0 = 0, the mapped severity is
Error, and is_silent is false. -/
theorem c8_info_quiet_two :
    verbosity InfoLevel.default_log 0 2 = 2 - 2 + 0
      ∧ log_level InfoLevel.default_log 0 2 = some Level.error
      ∧ is_silent InfoLevel.default_log 0 2 = false := by
  decide

/-- C9: the Display rendering is the decimal form of the raw signed
verbosity; the default-Error policy renders (2, 0) as "2", (0, 1) as
"-1", and (100, 0) as the unclamped "100" rather than the clamped
rank "4". -/
theorem c9_display_raw (dl : Option Level) (v q : Nat)
    (_hv : v < 256) (_hq : q < 256) :
    displayVerbosity dl v q = intRepr (verbosity dl v q)
      ∧ displayVerbosity ErrorLevel.default_log 2 0 = "2"
      ∧ displayVerbosity ErrorLevel.default_log 0 1 = "-1"
      ∧ displayVerbosity ErrorLevel.default_log 100 0 = "100"
      ∧ displayVerbosity ErrorLevel.default_log 100 0 ≠ "4" :=
  ⟨rfl, by decide, by decide, by decide, by decide⟩

/-- C9 witness: rendering instantiated at the default-Error policy with
verbose 2, quiet 0. -/
theorem c9_display_raw_witness :
    displayVerbosity ErrorLevel.default_log 2 0 = "2" :=
  (c9_display_raw ErrorLevel.default_log 2 0 (by decide) (by decide)).2.1

/-- C10: each u8 count of 128 or more is reinterpreted as count - 256
by the i8 cast, so for the default-Error policy such a verbose count
contributes negatively, and new(255, 0) maps to no output, not Trace. -/
theorem c10_wrapping_cast (c : Nat) (h1 : 128 ≤ c) (h2 : c < 256) :
    asI8 c = (c : Int) - 256
      ∧ verbosity ErrorLevel.default_log c 0 = (c : Int) - 256
      ∧ log_level ErrorLevel.default_log 255 0 = none
      ∧ log_level ErrorLevel.default_log 255 0 ≠ some Level.trace := by
  have ha : asI8 c = (c : Int) - 256 := by
    unfold asI8
    rw [if_neg (by omega)]
  refine ⟨ha, ?_, by decide, by decide⟩
  unfold verbosity
  rw [ha]
  have h0 : asI8 0 = 0 := by decide
  rw [h0]
  have hd : level_value_log ErrorLevel.default_log = 0 := by decide
  rw [hd]
  have hw0 : wrap8 (0 - 0) = 0 := by decide
  rw [hw0]
  rw [Int.zero_add]
  exact wrap8_eq_of_range _ (by omega) (by omega)

/-- C10 witness: the cast, verbosity, and level facts at count 255. -/
theorem c10_wrapping_cast_witness :
    asI8 255 = (255 : Int) - 256
      ∧ verbosity ErrorLevel.default_log 255 0 = (255 : Int) - 256
      ∧ log_level ErrorLevel.default_log 255 0 = none
      ∧ log_level ErrorLevel.default_log 255 0 ≠ some Level.trace :=
  c10_wrapping_cast 255 (by decide) (by decide)
